import Mathlib

/-!
Verification of the catalog-browsing and search layer of `crunchyroll-rs`
(`src/search.rs`): the lazy pagination engine, the multi-facet query
dispatcher, the browse filter compiler, and facet extraction.

The `Pagination` type, the `options!` macro and the envelope types
`V2BulkResult` / `V2TypeBulkResult` live in the crate's `common` module,
which is not part of the examined sources; where a definition depends on
them it is modelled from the specification and says so in its doc comment.
Everything else is translated directly from `src/search.rs`.
-/

/-- Modelled from the spec: the cursor state of one pagination engine
(`crate::common::Pagination`, not in the examined sources).
`start` is the forward offset, `total` the last observed reported total
(unknown before the first successful fetch), `exhausted` the terminal flag. -/
structure Cursor where
  start : Nat
  total : Option Nat
  exhausted : Bool
deriving DecidableEq

/-- Modelled from the spec: a fresh cursor, `start = 0`, total unknown,
not exhausted. -/
def Cursor.fresh : Cursor := ⟨0, none, false⟩

/-- A page result as returned by a fetch strategy: the ordered items plus the
total reported by the remote source. -/
structure PageResult (α : Type) where
  items : List α
  total : Nat
deriving DecidableEq

/-- Modelled from the spec: `next_page()` of the pagination engine, as explicit
state passing. If the cursor is exhausted, return an empty page and the cursor
unchanged without consulting the fetch strategy. Otherwise invoke the fetch
strategy at the current offset; on error return the error and the cursor
unchanged; on success advance `start` by the number of returned items, record
the reported total, and mark exhausted exactly when the returned items are
empty or `start + items.length ≥ total`. -/
def nextPage {E α : Type} (fetch : Nat → Except E (PageResult α)) (c : Cursor) :
    Except E (List α) × Cursor :=
  if c.exhausted then (Except.ok [], c)
  else
    match fetch c.start with
    | Except.error e => (Except.error e, c)
    | Except.ok pr =>
        (Except.ok pr.items,
          ⟨c.start + pr.items.length, some pr.total,
            pr.items.isEmpty || decide (pr.total ≤ c.start + pr.items.length)⟩)

/-- Modelled from the spec: driving the engine, calling `next_page()` up to
`fuel` times, stopping at exhaustion or at the first error, concatenating the
returned pages in order. Returns the collected items and the final cursor. -/
def runPages {E α : Type} (fetch : Nat → Except E (PageResult α)) :
    Nat → Cursor → List α × Cursor
  | 0, c => ([], c)
  | Nat.succ fuel, c =>
      if c.exhausted then ([], c)
      else
        match nextPage fetch c with
        | (Except.error _, c') => ([], c')
        | (Except.ok items, c') =>
            let rest := runPages fetch fuel c'
            (items ++ rest.1, rest.2)

/-- A list-backed well-behaved source: it holds the items `L`, always reports
the constant total `T`, and a fetch at offset `s` returns the next `p` items
of `L` from position `s` on. -/
def listFetch {α : Type} (L : List α) (T p : Nat) : Nat → Except Unit (PageResult α) :=
  fun s => Except.ok ⟨(L.drop s).take p, T⟩

theorem nextPage_exhausted {E α : Type} (fetch : Nat → Except E (PageResult α))
    (c : Cursor) (h : c.exhausted = true) : nextPage fetch c = (Except.ok [], c) := by
  simp [nextPage, h]

theorem nextPage_fetch_error {E α : Type} (fetch : Nat → Except E (PageResult α))
    (c : Cursor) (e : E) (hex : c.exhausted = false)
    (hf : fetch c.start = Except.error e) :
    nextPage fetch c = (Except.error e, c) := by
  simp [nextPage, hex, hf]

theorem nextPage_fetch_ok {E α : Type} (fetch : Nat → Except E (PageResult α))
    (c : Cursor) (pr : PageResult α) (hex : c.exhausted = false)
    (hf : fetch c.start = Except.ok pr) :
    nextPage fetch c =
      (Except.ok pr.items,
        ⟨c.start + pr.items.length, some pr.total,
          pr.items.isEmpty || decide (pr.total ≤ c.start + pr.items.length)⟩) := by
  simp [nextPage, hex, hf]

theorem nextPage_start_le {E α : Type} (fetch : Nat → Except E (PageResult α))
    (c : Cursor) : c.start ≤ (nextPage fetch c).2.start := by
  by_cases h : c.exhausted = true
  · simp [nextPage_exhausted fetch c h]
  · rw [Bool.not_eq_true] at h
    cases hf : fetch c.start with
    | error e => simp [nextPage_fetch_error fetch c e h hf]
    | ok pr => simp [nextPage_fetch_ok fetch c pr h hf]

theorem runPages_exhausted {E α : Type} (fetch : Nat → Except E (PageResult α))
    (fuel : Nat) (c : Cursor) (h : c.exhausted = true) :
    runPages fetch fuel c = ([], c) := by
  cases fuel with
  | zero => rfl
  | succ n => simp [runPages, h]

theorem runPages_start_le {E α : Type} (fetch : Nat → Except E (PageResult α))
    (fuel : Nat) (c : Cursor) : c.start ≤ (runPages fetch fuel c).2.start := by
  induction fuel generalizing c with
  | zero => simp [runPages]
  | succ n ih =>
    by_cases h : c.exhausted = true
    · simp [runPages_exhausted fetch _ c h]
    · rw [Bool.not_eq_true] at h
      have hle := nextPage_start_le fetch c
      cases hnp : nextPage fetch c with
      | mk r c' =>
        cases r with
        | error e => simp [runPages, h, hnp]; rw [hnp] at hle; exact hle
        | ok items =>
          simp only [runPages, h, if_false, hnp, Bool.false_eq_true]
          rw [hnp] at hle
          exact le_trans hle (ih c')

theorem listFetch_run_inv {α : Type} (L : List α) (T p : Nat) (hp : 0 < p) :
    ∀ (fuel s : Nat) (t : Option Nat), s ≤ L.length → (s = 0 ∨ s < T) →
      L.length + 1 ≤ fuel + s →
      (runPages (listFetch L T p) fuel ⟨s, t, false⟩).2.exhausted = true ∧
      min T L.length ≤ s + (runPages (listFetch L T p) fuel ⟨s, t, false⟩).1.length ∧
      s + (runPages (listFetch L T p) fuel ⟨s, t, false⟩).1.length ≤ min (T + p) L.length := by
  intro fuel
  induction fuel with
  | zero => intro s t hs _ hfuel; omega
  | succ n ih =>
    intro s t hs hst hfuel
    have hlen : ((L.drop s).take p).length = min p (L.length - s) := by
      simp [List.length_take, List.length_drop]
    have hnp : nextPage (listFetch L T p) ⟨s, t, false⟩ =
        (Except.ok ((L.drop s).take p),
          ⟨s + ((L.drop s).take p).length, some T,
            ((L.drop s).take p).isEmpty ||
              decide (T ≤ s + ((L.drop s).take p).length)⟩) :=
      nextPage_fetch_ok _ _ ⟨(L.drop s).take p, T⟩ rfl rfl
    have hstep : runPages (listFetch L T p) (n + 1) ⟨s, t, false⟩ =
        ((L.drop s).take p ++ (runPages (listFetch L T p) n
            ⟨s + ((L.drop s).take p).length, some T,
              ((L.drop s).take p).isEmpty ||
                decide (T ≤ s + ((L.drop s).take p).length)⟩).1,
          (runPages (listFetch L T p) n
            ⟨s + ((L.drop s).take p).length, some T,
              ((L.drop s).take p).isEmpty ||
                decide (T ≤ s + ((L.drop s).take p).length)⟩).2) := by
      simp only [runPages, hnp]
      rfl
    by_cases hend : L.length ≤ s
    · have hnil : (L.drop s).take p = [] := by
        rw [List.drop_eq_nil_of_le hend, List.take_nil]
      rw [hnil] at hstep
      simp only [List.isEmpty_nil, List.length_nil, Nat.add_zero, Bool.true_or] at hstep
      rw [runPages_exhausted (listFetch L T p) n ⟨s, some T, true⟩ rfl] at hstep
      rw [hstep]
      simp only [List.nil_append, List.length_nil]
      refine ⟨trivial, ?_, ?_⟩ <;> omega
    · push_neg at hend
      have hpos : 1 ≤ ((L.drop s).take p).length := by omega
      have hne : ((L.drop s).take p).isEmpty = false := by
        rcases hc : (L.drop s).take p with _ | ⟨a, rest⟩
        · rw [hc] at hpos; simp at hpos
        · rfl
      rw [hne, Bool.false_or] at hstep
      by_cases hT : T ≤ s + ((L.drop s).take p).length
      · rw [decide_eq_true hT] at hstep
        rw [runPages_exhausted (listFetch L T p) n
          ⟨s + ((L.drop s).take p).length, some T, true⟩ rfl] at hstep
        rw [hstep]
        simp only [List.append_nil]
        refine ⟨trivial, ?_, ?_⟩ <;> omega
      · rw [decide_eq_false hT] at hstep
        have ihh := ih (s + ((L.drop s).take p).length) (some T)
          (by omega) (Or.inr (by omega)) (by omega)
        rw [hstep]
        simp only [List.length_append]
        exact ⟨ihh.1, by omega, by omega⟩

/-- C1 (amended): on every successful fetch from a non-exhausted cursor,
`nextPage` advances `start` by the number of returned items and becomes
exhausted exactly when the fetch returned zero items or
`start + items.length ≥ reported total`; and for a list-backed source holding
items `L`, constant reported total `T` and page size `p > 0`, driving a fresh
engine reaches Exhausted, and the cumulative item count `C` over all successful
fetches satisfies `min T L.length ≤ C ≤ min (T + p) L.length`. The spec's
exact equality `C = min T L.length` fails when `T < L.length` and `p` does not
divide `T`: the engine over-delivers by up to one page. -/
theorem pagination_advance_exhaust_and_cumulative_bounds
    {E α : Type} (fetch : Nat → Except E (PageResult α)) (c : Cursor)
    (pr : PageResult α) (L : List α) (T p : Nat)
    (hex : c.exhausted = false) (hf : fetch c.start = Except.ok pr) (hp : 0 < p) :
    ((nextPage fetch c).2.start = c.start + pr.items.length ∧
      ((nextPage fetch c).2.exhausted = true ↔
        (pr.items = [] ∨ pr.total ≤ c.start + pr.items.length))) ∧
    ((runPages (listFetch L T p) (L.length + 1) Cursor.fresh).2.exhausted = true ∧
      min T L.length ≤ (runPages (listFetch L T p) (L.length + 1) Cursor.fresh).1.length ∧
      (runPages (listFetch L T p) (L.length + 1) Cursor.fresh).1.length ≤
        min (T + p) L.length) := by
  constructor
  · rw [nextPage_fetch_ok fetch c pr hex hf]
    refine ⟨rfl, ?_⟩
    simp [List.isEmpty_iff]
  · have h := listFetch_run_inv L T p hp (L.length + 1) 0 none (Nat.zero_le _)
      (Or.inl rfl) (by omega)
    simpa [Cursor.fresh] using h

/-- A concrete fetch strategy always returning the two items `[1, 2]` with
reported total 5, used to instantiate the pagination theorems. -/
def sampleFetchOk : Nat → Except Unit (PageResult Nat) :=
  fun _ => Except.ok ⟨[1, 2], 5⟩

/-- A concrete fetch strategy always returning one item, used as a second,
distinct strategy when instantiating the exhausted no-op theorem. -/
def sampleFetchOne : Nat → Except Unit (PageResult Nat) :=
  fun _ => Except.ok ⟨[1], 1⟩

/-- A concrete always-failing fetch strategy with error value 42. -/
def sampleFetchErr : Nat → Except Nat (PageResult Nat) :=
  fun _ => Except.error 42

/-- C1 witness: concrete instance of the amended pagination theorem, with a
fetch returning two items at offset 0 with total 5, and the list source
`[10, 20, 30, 40, 50]` with total 5 and page size 2. -/
theorem pagination_advance_exhaust_and_cumulative_bounds_witness :
    ((Cursor.fresh.exhausted = false ∧
      sampleFetchOk Cursor.fresh.start = Except.ok ⟨[1, 2], 5⟩ ∧ 0 < 2) ∧
    ((nextPage sampleFetchOk Cursor.fresh).2.start =
        Cursor.fresh.start + ([1, 2] : List Nat).length ∧
      min 5 ([10, 20, 30, 40, 50] : List Nat).length ≤
        (runPages (listFetch ([10, 20, 30, 40, 50] : List Nat) 5 2)
          (([10, 20, 30, 40, 50] : List Nat).length + 1) Cursor.fresh).1.length)) := by
  have h := pagination_advance_exhaust_and_cumulative_bounds
    sampleFetchOk Cursor.fresh ⟨[1, 2], 5⟩
    ([10, 20, 30, 40, 50] : List Nat) 5 2 rfl rfl (by decide)
  exact ⟨⟨rfl, rfl, by decide⟩, h.1.1, h.2.2.1⟩

/-- C1 counterexample: for the list source `[0, 1, 2, 3, 4]` (the source
actually yields 5 items), reported total 3 and page size 2, the cumulative
item count over all successful fetches is 4, not
`min (reported total) (items the source yields) = min 3 5 = 3`. -/
theorem pagination_cumulative_min_counterexample :
    ¬ ((runPages (listFetch ([0, 1, 2, 3, 4] : List Nat) 3 2) 6 Cursor.fresh).1.length
        = min 3 ([0, 1, 2, 3, 4] : List Nat).length) := by decide

/-- C2: on an exhausted cursor, `nextPage` returns an empty result and the
cursor unchanged; the outcome does not depend on the fetch strategy at all (no
network call is issued); the engine stays exhausted; driving it any number of
further steps yields nothing and changes nothing; and no operation of the
engine ever decreases `start` (in particular nothing rewinds it to zero). -/
theorem pagination_exhausted_noop {E α : Type}
    (fetch fetch2 : Nat → Except E (PageResult α)) (c : Cursor)
    (h : c.exhausted = true) :
    nextPage fetch c = (Except.ok [], c) ∧
    nextPage fetch c = nextPage fetch2 c ∧
    (nextPage fetch c).2.exhausted = true ∧
    (∀ fuel, runPages fetch fuel c = ([], c)) ∧
    (∀ (f : Nat → Except E (PageResult α)) (c' : Cursor) (fuel : Nat),
      c'.start ≤ (nextPage f c').2.start ∧
      c'.start ≤ (runPages f fuel c').2.start) := by
  refine ⟨nextPage_exhausted fetch c h, ?_, ?_, ?_, ?_⟩
  · rw [nextPage_exhausted fetch c h, nextPage_exhausted fetch2 c h]
  · rw [nextPage_exhausted fetch c h]; exact h
  · intro fuel; exact runPages_exhausted fetch fuel c h
  · intro f c' fuel; exact ⟨nextPage_start_le f c', runPages_start_le f fuel c'⟩

/-- C2 witness: a concrete exhausted cursor at offset 5 under two distinct
fetch strategies; `nextPage` returns the empty page and the same cursor. -/
theorem pagination_exhausted_noop_witness :
    (⟨5, some 5, true⟩ : Cursor).exhausted = true ∧
    nextPage sampleFetchOne (⟨5, some 5, true⟩ : Cursor) =
      (Except.ok [], (⟨5, some 5, true⟩ : Cursor)) := by
  refine ⟨rfl, ?_⟩
  exact (pagination_exhausted_noop sampleFetchOne sampleFetchOk
    (⟨5, some 5, true⟩ : Cursor) rfl).1

/-- C3: when the fetch strategy fails at the current offset, `nextPage` returns
that very error and the cursor exactly as it was, so a retry fetches at the
same offset; moreover for every cursor, `start` never decreases under
`nextPage`, and whenever `nextPage` returns an error the cursor is returned
unmodified (start only advances on fetch success). -/
theorem pagination_error_propagates_cursor_unchanged {E α : Type}
    (fetch : Nat → Except E (PageResult α)) (c : Cursor) (e : E)
    (hex : c.exhausted = false) (hf : fetch c.start = Except.error e) :
    nextPage fetch c = (Except.error e, c) ∧
    (∀ (f : Nat → Except E (PageResult α)) (c' : Cursor),
      c'.start ≤ (nextPage f c').2.start ∧
      (∀ e2, (nextPage f c').1 = Except.error e2 → (nextPage f c').2 = c')) := by
  refine ⟨nextPage_fetch_error fetch c e hex hf, ?_⟩
  intro f c'
  refine ⟨nextPage_start_le f c', ?_⟩
  intro e2 herr
  by_cases hx : c'.exhausted = true
  · rw [nextPage_exhausted f c' hx] at herr
    exact absurd herr (by simp)
  · rw [Bool.not_eq_true] at hx
    cases hfc : f c'.start with
    | error e3 => rw [nextPage_fetch_error f c' e3 hx hfc]
    | ok pr =>
      rw [nextPage_fetch_ok f c' pr hx hfc] at herr
      exact absurd herr (by simp)

/-- C3 witness: a concrete fresh cursor whose fetch fails with error 42;
`nextPage` returns the error and the unchanged cursor. -/
theorem pagination_error_propagates_cursor_unchanged_witness :
    Cursor.fresh.exhausted = false ∧
    nextPage sampleFetchErr Cursor.fresh = (Except.error 42, Cursor.fresh) := by
  refine ⟨rfl, ?_⟩
  exact (pagination_error_propagates_cursor_unchanged
    sampleFetchErr Cursor.fresh 42 rfl rfl).1

/-- A category identifier (`crate::categories::Category`, not in the examined
sources); only its wire string matters here. -/
abbrev Category := String

/-- A media type wire value (`crate::media::MediaType`, not in the examined
sources); only its wire string matters here. -/
abbrev MediaType := String

/-- A locale tag (`crate::Locale`, not in the examined sources); only its wire
string matters here. -/
abbrev LocaleTag := String

/-- The browse sort order, from the `enum_values!` block of `src/search.rs`
lines 40-46. -/
inductive BrowseSortType
  | Popularity
  | NewlyAdded
  | Alphabetical
deriving DecidableEq

/-- The wire string of each sort order, from `src/search.rs` lines 41-44. -/
def BrowseSortType.wire : BrowseSortType → String
  | .Popularity => "popularity"
  | .NewlyAdded => "newly_added"
  | .Alphabetical => "alphabetical"

/-- The browse option set from the `options!` block of `src/search.rs` lines
48-65: field names, wire keys and defaults are taken from that block; every
field except `categories` and `sort` defaults to unset, `sort` defaults to
`NewlyAdded`, `categories` to the empty list. -/
structure BrowseOptions where
  categories : List Category := []
  is_dubbed : Option Bool := none
  is_subbed : Option Bool := none
  simulcast_season : Option String := none
  sort : Option BrowseSortType := some BrowseSortType.NewlyAdded
  media_type : Option MediaType := none
  preferred_audio_language : Option LocaleTag := none

/-- Modelled from the spec: `into_query` of the `options!` macro (the macro
lives in `crate::common`, not in the examined sources): compile the option set
into the ordered filter list — one `"categories"` entry per category in list
order (omitted entirely when the list is empty), then each remaining field in
declaration order, emitted only when set, under the wire keys declared in
`src/search.rs` lines 48-65. -/
def BrowseOptions.into_query (o : BrowseOptions) : List (String × String) :=
  o.categories.map (fun c => ("categories", c)) ++
  (match o.is_dubbed with
   | some b => [("is_dubbed", toString b)]
   | none => []) ++
  (match o.is_subbed with
   | some b => [("is_subbed", toString b)]
   | none => []) ++
  (match o.simulcast_season with
   | some s => [("season_tag", s)]
   | none => []) ++
  (match o.sort with
   | some s => [("sort", s.wire)]
   | none => []) ++
  (match o.media_type with
   | some m => [("type", m)]
   | none => []) ++
  (match o.preferred_audio_language with
   | some l => [("preferred_audio_language", l)]
   | none => [])

theorem filter_map_categories_self (cats : List String) :
    (cats.map (fun c => (("categories" : String), c))).filter
      (fun e => e.1 == "categories") =
    cats.map (fun c => (("categories" : String), c)) := by
  induction cats with
  | nil => rfl
  | cons a as ih => simp [List.filter, ih]

theorem filter_map_categories_ne (cats : List String) (k : String)
    (h : (("categories" : String) == k) = false) :
    (cats.map (fun c => (("categories" : String), c))).filter
      (fun e => e.1 == k) = [] := by
  induction cats with
  | nil => rfl
  | cons a as ih => simp [List.filter, h, ih]

theorem into_query_filter_categories (o : BrowseOptions) :
    o.into_query.filter (fun e => e.1 == "categories") =
      o.categories.map (fun c => ("categories", c)) := by
  obtain ⟨cats, d, sb, ss, srt, mt, pal⟩ := o
  cases d <;> cases sb <;> cases ss <;> cases srt <;> cases mt <;> cases pal <;>
    simp [BrowseOptions.into_query, List.filter_append, List.filter,
      filter_map_categories_self]

/-- C4: whenever the caller left `sort` at its default, the compiled filter
list contains the entry `("sort", "newly_added")` (the fixed default), while
each of `is_dubbed`, `is_subbed`, `simulcast_season` (wire key `season_tag`),
`media_type` (wire key `type`) and `preferred_audio_language` contributes no
entry at all when the caller did not set it. -/
theorem browse_sort_default_present_others_omitted (o : BrowseOptions)
    (hs : o.sort = some BrowseSortType.NewlyAdded) :
    ("sort", "newly_added") ∈ o.into_query ∧
    (o.is_dubbed = none →
      o.into_query.filter (fun e => e.1 == "is_dubbed") = []) ∧
    (o.is_subbed = none →
      o.into_query.filter (fun e => e.1 == "is_subbed") = []) ∧
    (o.simulcast_season = none →
      o.into_query.filter (fun e => e.1 == "season_tag") = []) ∧
    (o.media_type = none →
      o.into_query.filter (fun e => e.1 == "type") = []) ∧
    (o.preferred_audio_language = none →
      o.into_query.filter (fun e => e.1 == "preferred_audio_language") = []) := by
  obtain ⟨cats, d, sb, ss, srt, mt, pal⟩ := o
  simp only at hs
  subst hs
  refine ⟨?_, ?_, ?_, ?_, ?_, ?_⟩
  · simp [BrowseOptions.into_query, BrowseSortType.wire]
  · intro h
    simp only at h
    subst h
    cases sb <;> cases ss <;> cases mt <;> cases pal <;>
      simp [BrowseOptions.into_query, List.filter_append, List.filter,
        filter_map_categories_ne]
  · intro h
    simp only at h
    subst h
    cases d <;> cases ss <;> cases mt <;> cases pal <;>
      simp [BrowseOptions.into_query, List.filter_append, List.filter,
        filter_map_categories_ne]
  · intro h
    simp only at h
    subst h
    cases d <;> cases sb <;> cases mt <;> cases pal <;>
      simp [BrowseOptions.into_query, List.filter_append, List.filter,
        filter_map_categories_ne]
  · intro h
    simp only at h
    subst h
    cases d <;> cases sb <;> cases ss <;> cases pal <;>
      simp [BrowseOptions.into_query, List.filter_append, List.filter,
        filter_map_categories_ne]
  · intro h
    simp only at h
    subst h
    cases d <;> cases sb <;> cases ss <;> cases mt <;>
      simp [BrowseOptions.into_query, List.filter_append, List.filter,
        filter_map_categories_ne]

/-- C4 witness: the all-defaults option set: its compiled filter list contains
the default sort entry. -/
theorem browse_sort_default_present_others_omitted_witness :
    ({} : BrowseOptions).sort = some BrowseSortType.NewlyAdded ∧
    ("sort", "newly_added") ∈ ({} : BrowseOptions).into_query := by
  refine ⟨rfl, ?_⟩
  exact (browse_sort_default_present_others_omitted {} rfl).1

/-- C6: compiling any option set with an empty categories list yields a filter
list with zero `"categories"` entries, and compiling with `categories = [A, B]`
yields exactly the two entries `("categories", A)` then `("categories", B)`,
in that order. -/
theorem browse_categories_entries (o : BrowseOptions) (A B : Category) :
    ({ o with categories := [] } : BrowseOptions).into_query.filter
        (fun e => e.1 == "categories") = [] ∧
    ({ o with categories := [A, B] } : BrowseOptions).into_query.filter
        (fun e => e.1 == "categories") =
      [("categories", A), ("categories", B)] := by
  constructor
  · rw [into_query_filter_categories]
    rfl
  · rw [into_query_filter_categories]
    rfl

/-- C8: filter compilation is deterministic: identical browse option input
compiles to the identical filter list, entries and order included. In this
embedding `into_query` is a pure function of the option record, so equal
inputs give syntactically equal outputs. -/
theorem browse_filter_compilation_deterministic (o1 o2 : BrowseOptions)
    (h : o1 = o2) : o1.into_query = o2.into_query := by
  rw [h]

/-- C8 witness: the determinism theorem applied at the all-defaults option
set. -/
theorem browse_filter_compilation_deterministic_witness :
    ({} : BrowseOptions) = ({} : BrowseOptions) ∧
    ({} : BrowseOptions).into_query = ({} : BrowseOptions).into_query :=
  ⟨rfl, browse_filter_compilation_deterministic {} {} rfl⟩

/-- One facet entry of the multi-facet search envelope (`V2TypeBulkResult` in
`crate::common`, not in the examined sources): a discriminant tag
`result_type`, the facet's items and its reported total. -/
structure V2TypeBulkResult (α : Type) where
  result_type : String
  items : List α
  total : Nat
deriving DecidableEq

/-- The `Default` value of a facet entry as used by `unwrap_or_default()` in
`src/search.rs`: empty tag, no items, total 0. -/
def V2TypeBulkResult.defaultValue (α : Type) : V2TypeBulkResult α := ⟨"", [], 0⟩

/-- Facet extraction, from `src/search.rs` lines 141-146 (and the three
analogous blocks of the other facets):
`result.data.into_iter().find(|r| r.result_type == disc).unwrap_or_default()`,
then return the found entry's `(items, total)`. -/
def extractFacet {α : Type} (data : List (V2TypeBulkResult α)) (disc : String) :
    List α × Nat :=
  let r := (data.find? (fun r => r.result_type == disc)).getD
    (V2TypeBulkResult.defaultValue α)
  (r.items, r.total)

/-- Modelled from the spec plus `src/search.rs` lines 129-151: the fetch
strategy bound into one search facet engine: request the multi-facet envelope
at the current offset from the transport source, then extract this engine's
own discriminant's facet as the page. -/
def facetFetch {E α : Type} (disc : String)
    (src : Nat → Except E (List (V2TypeBulkResult α))) :
    Nat → Except E (PageResult α) :=
  fun s => (src s).map (fun data =>
    ⟨(extractFacet data disc).1, (extractFacet data disc).2⟩)

theorem find_none_of_no_match {α : Type} (data : List (V2TypeBulkResult α))
    (disc : String) (h : ∀ r ∈ data, r.result_type ≠ disc) :
    data.find? (fun r => r.result_type == disc) = none := by
  rw [List.find?_eq_none]
  intro x hx
  simp [h x hx]

/-- C5: facet extraction is total: on any decoded envelope having no entry
with the requested discriminant it returns `([], 0)` as a plain value (the
return type `List α × Nat` admits no error), and the first `next_page` of an
engine whose fetch strategy binds that discriminant over such an envelope
returns the empty page with observed total 0 and leaves the engine immediately
exhausted. -/
theorem facet_extraction_total_absent {α : Type}
    (data : List (V2TypeBulkResult α)) (disc : String)
    (h : ∀ r ∈ data, r.result_type ≠ disc) :
    extractFacet data disc = ([], 0) ∧
    (∀ (E : Type) (src : Nat → Except E (List (V2TypeBulkResult α)))
        (c : Cursor), c.exhausted = false → src c.start = Except.ok data →
      nextPage (facetFetch disc src) c =
        (Except.ok [], ⟨c.start, some 0, true⟩)) := by
  have hfind := find_none_of_no_match data disc h
  have hext : extractFacet data disc = ([], 0) := by
    simp [extractFacet, hfind, V2TypeBulkResult.defaultValue]
  refine ⟨hext, ?_⟩
  intro E src c hc hsrc
  have hf : facetFetch disc src c.start = Except.ok ⟨[], 0⟩ := by
    simp [facetFetch, hsrc, Except.map, hext]
  rw [nextPage_fetch_ok (facetFetch disc src) c ⟨[], 0⟩ hc hf]
  rfl

/-- A concrete multi-facet envelope holding only a `"movie_listing"` facet,
used to instantiate the extraction theorems. -/
def sampleEnvelope : List (V2TypeBulkResult Nat) := [⟨"movie_listing", [7], 1⟩]

/-- A concrete transport source always returning `sampleEnvelope`. -/
def sampleEnvelopeSrc : Nat → Except Unit (List (V2TypeBulkResult Nat)) :=
  fun _ => Except.ok sampleEnvelope

/-- C5 witness: querying the `"series"` facet of an envelope holding only a
`"movie_listing"` entry yields `([], 0)`, and the series engine's first page
is empty with the engine immediately exhausted. -/
theorem facet_extraction_total_absent_witness :
    (∀ r ∈ sampleEnvelope, r.result_type ≠ "series") ∧
    extractFacet sampleEnvelope "series" = ([], 0) ∧
    nextPage (facetFetch "series" sampleEnvelopeSrc) Cursor.fresh =
      (Except.ok [], ⟨0, some 0, true⟩) := by
  have h : ∀ r ∈ sampleEnvelope, r.result_type ≠ "series" := by
    intro r hr
    simp [sampleEnvelope] at hr
    subst hr
    decide
  have hmain := facet_extraction_total_absent sampleEnvelope "series" h
  exact ⟨h, hmain.1, hmain.2 Unit sampleEnvelopeSrc Cursor.fresh rfl rfl⟩

/-- C9: when two or more envelope entries carry the requested discriminant,
extraction returns the items and total of the first matching entry in envelope
order, ignoring every later matching entry (`post` is arbitrary and may hold
further matches). -/
theorem facet_extraction_first_match {α : Type}
    (pre post : List (V2TypeBulkResult α)) (r : V2TypeBulkResult α)
    (disc : String) (hpre : ∀ x ∈ pre, x.result_type ≠ disc)
    (hr : r.result_type = disc) :
    extractFacet (pre ++ r :: post) disc = (r.items, r.total) := by
  have hfind : (pre ++ r :: post).find? (fun x => x.result_type == disc)
      = some r := by
    induction pre with
    | nil => simp [List.find?, hr]
    | cons a as ih =>
      have ha : (a.result_type == disc) = false := by
        simp [hpre a (List.mem_cons_self a as)]
      simp only [List.cons_append, List.find?]
      rw [ha]
      exact ih (fun x hx => hpre x (List.mem_cons_of_mem a hx))
  simp [extractFacet, hfind]

/-- C9 witness: an envelope with two `"series"` entries; extraction returns
the first entry's items `[1]` and total 1, ignoring the second. -/
theorem facet_extraction_first_match_witness :
    (∀ x ∈ ([] : List (V2TypeBulkResult Nat)), x.result_type ≠ "series") ∧
    (("series" : String) = "series") ∧
    extractFacet
      ([] ++ (⟨"series", [1], 1⟩ : V2TypeBulkResult Nat) ::
        [⟨"series", [2, 3], 9⟩]) "series" = ([1], 1) := by
  refine ⟨?_, rfl, ?_⟩
  · intro x hx
    exact absurd hx (List.not_mem_nil x)
  · exact facet_extraction_first_match [] [⟨"series", [2, 3], 9⟩]
      ⟨"series", [1], 1⟩ "series"
      (fun x hx => absurd hx (List.not_mem_nil x)) rfl

/-- Modelled from the spec: one facet pagination engine as produced by the
query dispatcher (`Pagination::new` lives in `crate::common`, not in the
examined sources): the discriminant bound into its fetch strategy, the filter
list merged into every fetch, and the engine's own cursor, fresh at
construction. -/
structure Engine (α : Type) where
  discriminant : String
  query : List (String × String)
  cursor : Cursor

/-- The four facet engines returned by one search call, from the
`QueryResults` struct of `src/search.rs` lines 117-122. -/
structure QueryResults (A B C D : Type) where
  top_results : Engine A
  series : Engine B
  movie_listing : Engine C
  episode : Engine D

/-- `Crunchyroll::query` from `src/search.rs` lines 126-229: four
independently-cursored engines over the search endpoint, each constructed
with the filter list `[("q", text)]` and its own discriminant
(`"top_results"`, `"series"`, `"movie_listing"`, `"episode"`) bound into its
fetch strategy. -/
def Crunchyroll.query (A B C D : Type) (text : String) : QueryResults A B C D :=
  ⟨⟨"top_results", [("q", text)], Cursor.fresh⟩,
    ⟨"series", [("q", text)], Cursor.fresh⟩,
    ⟨"movie_listing", [("q", text)], Cursor.fresh⟩,
    ⟨"episode", [("q", text)], Cursor.fresh⟩⟩

/-- Modelled from the spec: advancing one engine: run `next_page` with the
facet fetch strategy built from the engine's own discriminant over an
envelope source, updating only this engine's cursor. -/
def Engine.step {E α : Type} (e : Engine α)
    (src : Nat → Except E (List (V2TypeBulkResult α))) :
    Except E (List α) × Engine α :=
  let r := nextPage (facetFetch e.discriminant src) e.cursor
  (r.1, ⟨e.discriminant, e.query, r.2⟩)

/-- Modelled from the spec: advance only the top-results engine. -/
def QueryResults.advanceTopResults {A B C D E : Type} (q : QueryResults A B C D)
    (src : Nat → Except E (List (V2TypeBulkResult A))) : QueryResults A B C D :=
  ⟨(q.top_results.step src).2, q.series, q.movie_listing, q.episode⟩

/-- Modelled from the spec: advance only the series engine. -/
def QueryResults.advanceSeries {A B C D E : Type} (q : QueryResults A B C D)
    (src : Nat → Except E (List (V2TypeBulkResult B))) : QueryResults A B C D :=
  ⟨q.top_results, (q.series.step src).2, q.movie_listing, q.episode⟩

/-- Modelled from the spec: advance only the movie-listing engine. -/
def QueryResults.advanceMovieListing {A B C D E : Type} (q : QueryResults A B C D)
    (src : Nat → Except E (List (V2TypeBulkResult C))) : QueryResults A B C D :=
  ⟨q.top_results, q.series, (q.movie_listing.step src).2, q.episode⟩

/-- Modelled from the spec: advance only the episode engine. -/
def QueryResults.advanceEpisode {A B C D E : Type} (q : QueryResults A B C D)
    (src : Nat → Except E (List (V2TypeBulkResult D))) : QueryResults A B C D :=
  ⟨q.top_results, q.series, q.movie_listing, (q.episode.step src).2⟩

/-- C7: `query` produces four engines, each binding the same search text as
the filter entry `("q", text)` and its own distinct discriminant, each with a
fresh independent cursor; and advancing any one engine leaves the other three
engines (cursor state included) unchanged. -/
theorem query_four_engines_bound_and_independent (A B C D : Type)
    (text : String) :
    ((Crunchyroll.query A B C D text).top_results.query = [("q", text)] ∧
      (Crunchyroll.query A B C D text).series.query = [("q", text)] ∧
      (Crunchyroll.query A B C D text).movie_listing.query = [("q", text)] ∧
      (Crunchyroll.query A B C D text).episode.query = [("q", text)]) ∧
    ((Crunchyroll.query A B C D text).top_results.discriminant = "top_results" ∧
      (Crunchyroll.query A B C D text).series.discriminant = "series" ∧
      (Crunchyroll.query A B C D text).movie_listing.discriminant =
        "movie_listing" ∧
      (Crunchyroll.query A B C D text).episode.discriminant = "episode") ∧
    ((Crunchyroll.query A B C D text).top_results.cursor = Cursor.fresh ∧
      (Crunchyroll.query A B C D text).series.cursor = Cursor.fresh ∧
      (Crunchyroll.query A B C D text).movie_listing.cursor = Cursor.fresh ∧
      (Crunchyroll.query A B C D text).episode.cursor = Cursor.fresh) ∧
    (∀ (E : Type) (q : QueryResults A B C D)
        (srcA : Nat → Except E (List (V2TypeBulkResult A)))
        (srcB : Nat → Except E (List (V2TypeBulkResult B)))
        (srcC : Nat → Except E (List (V2TypeBulkResult C)))
        (srcD : Nat → Except E (List (V2TypeBulkResult D))),
      ((q.advanceTopResults srcA).series = q.series ∧
        (q.advanceTopResults srcA).movie_listing = q.movie_listing ∧
        (q.advanceTopResults srcA).episode = q.episode) ∧
      ((q.advanceSeries srcB).top_results = q.top_results ∧
        (q.advanceSeries srcB).movie_listing = q.movie_listing ∧
        (q.advanceSeries srcB).episode = q.episode) ∧
      ((q.advanceMovieListing srcC).top_results = q.top_results ∧
        (q.advanceMovieListing srcC).series = q.series ∧
        (q.advanceMovieListing srcC).episode = q.episode) ∧
      ((q.advanceEpisode srcD).top_results = q.top_results ∧
        (q.advanceEpisode srcD).series = q.series ∧
        (q.advanceEpisode srcD).movie_listing = q.movie_listing)) := by
  refine ⟨⟨rfl, rfl, rfl, rfl⟩, ⟨rfl, rfl, rfl, rfl⟩, ⟨rfl, rfl, rfl, rfl⟩, ?_⟩
  intro E q srcA srcB srcC srcD
  exact ⟨⟨rfl, rfl, rfl⟩, ⟨rfl, rfl, rfl⟩, ⟨rfl, rfl, rfl⟩, ⟨rfl, rfl, rfl⟩⟩

/-- The localization of a simulcast season, from `src/search.rs` lines
13-16. -/
structure SimulcastSeasonLocalization where
  title : String
  description : String
deriving DecidableEq

/-- A simulcast season, from `src/search.rs` lines 22-25. -/
structure SimulcastSeason where
  id : String
  localization : SimulcastSeasonLocalization
deriving DecidableEq

/-- The bulk envelope of the season list, from `src/search.rs` lines
32-38: the decoded items plus the reported total. -/
structure BulkSimulcastSeasonResult where
  items : List SimulcastSeason
  total : Nat
deriving DecidableEq

/-- `Crunchyroll::simulcast_seasons` from `src/search.rs` lines 94-103, with
the transport request's outcome passed explicitly: a failed request's error is
propagated by `?`, otherwise only the `items` field of the decoded bulk
envelope is returned. -/
def simulcast_seasons {E : Type} (resp : Except E BulkSimulcastSeasonResult) :
    Except E (List SimulcastSeason) :=
  match resp with
  | Except.error e => Except.error e
  | Except.ok r => Except.ok r.items

/-- C10: `simulcast_seasons` returns exactly the items of the decoded bulk
envelope (the envelope's reported total is discarded: the result is invariant
under changing it), and any transport or decode error is propagated unchanged
without fabricating a result. -/
theorem simulcast_seasons_items_only (E : Type) :
    (∀ r : BulkSimulcastSeasonResult,
      simulcast_seasons (Except.ok r : Except E BulkSimulcastSeasonResult) =
        Except.ok r.items) ∧
    (∀ (items : List SimulcastSeason) (t1 t2 : Nat),
      simulcast_seasons (Except.ok ⟨items, t1⟩ :
          Except E BulkSimulcastSeasonResult) =
        simulcast_seasons (Except.ok ⟨items, t2⟩)) ∧
    (∀ e : E,
      simulcast_seasons (Except.error e : Except E BulkSimulcastSeasonResult) =
        Except.error e) :=
  ⟨fun _ => rfl, fun _ _ _ => rfl, fun _ => rfl⟩
